import Mathlib

/-!
Verification development for the mabouya voxel-world server (`server.py`).
Python dictionaries are modelled as association lists with overwrite-on-insert
semantics; machine floats on the arithmetic paths relevant to the claims are
modelled as rationals, with the transcendental library calls (cos, sin, tan,
sqrt) abstracted as an oracle parameter.
-/

set_option maxRecDepth 4096

/-- Lookup in a Python dict modelled as an association list. -/
def dlookup {K V : Type} [DecidableEq K] (m : List (K × V)) (k : K) : Option V :=
  (m.find? (fun p => decide (p.1 = k))).map Prod.snd

/-- Dict assignment `m[k] = v`: overwrites any previous binding of `k`. -/
def dinsert {K V : Type} [DecidableEq K] (m : List (K × V)) (k : K) (v : V) :
    List (K × V) :=
  (k, v) :: m.filter (fun p => decide (p.1 ≠ k))

/-- Position-derived cube id, from `Cube.__init__` and `Cube.move_to`:
`f"cube_{x}_{y}_{z}_{block_type}"`. -/
def cubeIdAt (p : ℚ × ℚ × ℚ) (bt : String) : String :=
  "cube_" ++ toString p.1 ++ "_" ++ toString p.2.1 ++ "_" ++ toString p.2.2 ++ "_" ++ bt

/-- A cube object (`class Cube` and its subclasses).  Fields that only camera
cubes use (`rotation`, `fov`, `resolution`, `name`) are carried on every record
with the constructor defaults of `CubeCamera.__init__`. -/
structure Cube where
  position : ℚ × ℚ × ℚ
  block_type : String
  is_moveable : Bool
  id : String
  name : String
  rotation : ℚ × ℚ
  fov : ℚ
  resolution : ℚ × ℚ
deriving DecidableEq

/-- `Cube.__init__` for a plain terrain cube. -/
def mkCube (p : ℚ × ℚ × ℚ) (bt : String) : Cube :=
  { position := p, block_type := bt, is_moveable := false, id := cubeIdAt p bt,
    name := "", rotation := (0, 0), fov := 70, resolution := (240, 180) }

/-- `CubeCamera.__init__`: id is `f"cam_{datetime.now().timestamp()}"`; the
timestamp string is a parameter since it is environment-chosen. -/
def mkCubeCamera (p : ℚ × ℚ × ℚ) (nm : String) (res : ℚ × ℚ) (ts : String) : Cube :=
  { position := p, block_type := "camera", is_moveable := true,
    id := "cam_" ++ ts, name := nm, rotation := (0, 0), fov := 70, resolution := res }

/-- `Player.__init__`: id is `f"player_{player_id}"`. -/
def mkPlayer (p : ℚ × ℚ × ℚ) (player_id nm : String) : Cube :=
  { position := p, block_type := "player", is_moveable := true,
    id := "player_" ++ player_id, name := nm, rotation := (0, 0), fov := 70,
    resolution := (240, 180) }

/-- `Cube.move_to`: if moveable, updates the position and rewrites the id to
the position-based pattern; returns the updated object and the success flag. -/
def Cube.move_to (c : Cube) (p : ℚ × ℚ × ℚ) : Cube × Bool :=
  if c.is_moveable then
    ({ c with position := p, id := cubeIdAt p c.block_type }, true)
  else (c, false)

/-- `CubeCamera.rotate`: yaw accumulates freely, pitch is clamped to
`[-90, 90]`. -/
def Cube.rotateCam (c : Cube) (yawDelta pitchDelta : ℚ) : Cube :=
  { c with rotation :=
      (c.rotation.1 + yawDelta, max (-90) (min 90 (c.rotation.2 + pitchDelta))) }

/-- The server world (`class World`): terrain dict plus the four actor
collections, each a dict keyed by id. -/
structure World where
  blocks : List ((ℤ × ℤ × ℤ) × Cube)
  cameras : List (String × Cube)
  ai_agents : List (String × Cube)
  players : List (String × Cube)
  special_cubes : List (String × Cube)
deriving DecidableEq

/-- Floors a continuous position to its integer cell, as in
`World.get_all_blocks`. -/
def floorCell (p : ℚ × ℚ × ℚ) : ℤ × ℤ × ℤ :=
  (⌊p.1⌋, ⌊p.2.1⌋, ⌊p.2.2⌋)

/-- The dynamic actors of the world in the iteration order of
`World.get_all_blocks`: cameras, AI agents, players, special cubes. -/
def World.actorList (w : World) : List Cube :=
  w.cameras.map Prod.snd ++ w.ai_agents.map Prod.snd ++
    w.players.map Prod.snd ++ w.special_cubes.map Prod.snd

/-- `World.get_all_blocks`: copies the terrain dict, then writes every actor at
its floored cell (later writes overwrite earlier entries). -/
def World.get_all_blocks (w : World) : List ((ℤ × ℤ × ℤ) × Cube) :=
  w.actorList.foldl (fun m c => dinsert m (floorCell c.position) c) w.blocks

/-- `World.get_camera`. -/
def World.get_camera (w : World) (camera_id : String) : Option Cube :=
  dlookup w.cameras camera_id

/-- `World.move_cube`: searches cameras, AI agents, players, special cubes in
that order, and calls `move_to` on the first match (the dict key is untouched;
only the stored object changes, as the Python mutation is in place). -/
def World.move_cube (w : World) (cube_id : String) (p : ℚ × ℚ × ℚ) :
    World × Bool :=
  match dlookup w.cameras cube_id with
  | some c =>
      let r := c.move_to p
      ({ w with cameras := dinsert w.cameras cube_id r.1 }, r.2)
  | Option.none =>
    match dlookup w.ai_agents cube_id with
    | some c =>
        let r := c.move_to p
        ({ w with ai_agents := dinsert w.ai_agents cube_id r.1 }, r.2)
    | Option.none =>
      match dlookup w.players cube_id with
      | some c =>
          let r := c.move_to p
          ({ w with players := dinsert w.players cube_id r.1 }, r.2)
      | Option.none =>
        match dlookup w.special_cubes cube_id with
        | some c =>
            let r := c.move_to p
            ({ w with special_cubes := dinsert w.special_cubes cube_id r.1 }, r.2)
        | Option.none => (w, false)

/-! ## The exact ray-march renderer (`CubeCamera._ray_march`) -/

/-- An RGB color, as the `[r, g, b]` lists the Python renderer builds. -/
abbrev Color := List ℕ

/-- The fixed per-block-type color table of `_ray_march` (the if/elif chain). -/
def blockColor (bt : String) : Color :=
  if bt = "grass" then [34, 139, 34]
  else if bt = "stone" then [128, 128, 128]
  else if bt = "player" then [0, 150, 255]
  else if bt = "camera" then [255, 255, 0]
  else if bt = "ai_agent" then [255, 0, 255]
  else [139, 69, 19]

/-- The two-tone sky of `_ray_march`: lighter blue when the ray points up,
darker blue otherwise. -/
def skyColor (dy : ℚ) : Color :=
  if 0 < dy then [135, 206, 235] else [100, 149, 237]

/-- The cell sampled at march step `i` (step size 1.0):
`floor(origin + direction * i)` componentwise. -/
def cellAt (o d : ℚ × ℚ × ℚ) (i : ℕ) : ℤ × ℤ × ℤ :=
  floorCell (o.1 + d.1 * i, o.2.1 + d.2.1 * i, o.2.2 + d.2.2 * i)

/-- The march loop of `_ray_march`, with the step index and the remaining
iteration budget made explicit. -/
def rayMarchLoop (o d : ℚ × ℚ × ℚ) (blocks : ℤ × ℤ × ℤ → Option String) :
    ℕ → ℕ → Color
  | _, 0 => skyColor d.2.1
  | i, fuel + 1 =>
    match blocks (cellAt o d i) with
    | some bt => blockColor bt
    | Option.none => rayMarchLoop o d blocks (i + 1) fuel

/-- `CubeCamera._ray_march` with its default `max_dist=20` and `step=1.0`:
`max_iterations = int(20 / 1.0) = 20` samples starting at the origin. -/
def rayMarch (o d : ℚ × ℚ × ℚ) (blocks : ℤ × ℤ × ℤ → Option String) : Color :=
  rayMarchLoop o d blocks 0 20

/-- Spec-side description: the block type of the first occupied sampled cell
within the maximum distance, if any. -/
def firstHitBlockType (o d : ℚ × ℚ × ℚ) (blocks : ℤ × ℤ × ℤ → Option String) :
    Option String :=
  (List.range 20).findSome? (fun i => blocks (cellAt o d i))

/-- Modelled from the spec wording of the color table: grass green, stone
gray, player blue, camera yellow, ai_agent magenta, default brown. -/
def specColorOf (bt : String) : Color :=
  if bt = "grass" then [34, 139, 34]
  else if bt = "stone" then [128, 128, 128]
  else if bt = "player" then [0, 150, 255]
  else if bt = "camera" then [255, 255, 0]
  else if bt = "ai_agent" then [255, 0, 255]
  else [139, 69, 19]

/-- Modelled from the spec wording of the sky: two-tone by the sign of the
vertical ray component. -/
def specSkyColor (dy : ℚ) : Color :=
  if 0 < dy then [135, 206, 235] else [100, 149, 237]

/-! ## The full raytracing frame renderer (`CubeCamera._render_view_raytracing`)

The Python code computes per-pixel ray directions with `math.cos`, `math.sin`,
`math.tan` and `math.sqrt` on floats.  Those library calls are abstracted as an
oracle of rational functions (`cosDeg yaw` stands for
`math.cos(math.radians(yaw))`, `tanDeg a` for `math.tan(math.radians(a))`,
which with `a = fov / 2` equals the source's `tan(fov_rad / 2)`); the
surrounding arithmetic is translated exactly. -/

structure TrigOracle where
  cosDeg : ℚ → ℚ
  sinDeg : ℚ → ℚ
  tanDeg : ℚ → ℚ
  sqrtQ : ℚ → ℚ

/-- A camera pose as consumed by `_render_view_raytracing`: position, yaw,
pitch, field of view and the two resolution components. -/
structure Pose where
  position : ℚ × ℚ × ℚ
  yaw : ℚ
  pitch : ℚ
  fov : ℚ
  width : ℕ
  height : ℕ

/-- The per-pixel ray direction computation of `_render_view_raytracing`
(screen mapping, fov scaling, yaw rotation, pitch rotation, normalization). -/
def rayDirection (o : TrigOracle) (pose : Pose) (px py : ℕ) : ℚ × ℚ × ℚ :=
  let w : ℚ := pose.width
  let h : ℚ := pose.height
  let aspect := w / h
  let screenX := (2 * (px : ℚ) / w - 1) * aspect
  let screenY := 1 - 2 * (py : ℚ) / h
  let t := o.tanDeg (pose.fov / 2)
  let rx0 := screenX * t
  let ry0 := screenY * t
  let rz0 : ℚ := 1
  let cy := o.cosDeg pose.yaw
  let sy := o.sinDeg pose.yaw
  let rx1 := rx0 * cy - rz0 * sy
  let rz1 := rx0 * sy + rz0 * cy
  let cp := o.cosDeg pose.pitch
  let sp := o.sinDeg pose.pitch
  let ry2 := ry0 * cp - rz1 * sp
  let rz2 := ry0 * sp + rz1 * cp
  let len := o.sqrtQ (rx1 ^ 2 + ry2 ^ 2 + rz2 ^ 2)
  (rx1 / len, ry2 / len, rz2 / len)

/-- The 5×8 bitmap digit font (`digit_patterns` in the source). -/
def digitPattern (d : ℕ) : List (List ℕ) :=
  match d with
  | 0 => [[1,1,1,1,1], [1,0,0,0,1], [1,0,0,0,1], [1,0,0,0,1], [1,0,0,0,1], [1,0,0,0,1], [1,0,0,0,1], [1,1,1,1,1]]
  | 1 => [[0,0,1,0,0], [0,1,1,0,0], [0,0,1,0,0], [0,0,1,0,0], [0,0,1,0,0], [0,0,1,0,0], [0,0,1,0,0], [1,1,1,1,1]]
  | 2 => [[1,1,1,1,1], [0,0,0,0,1], [0,0,0,0,1], [1,1,1,1,1], [1,0,0,0,0], [1,0,0,0,0], [1,0,0,0,0], [1,1,1,1,1]]
  | 3 => [[1,1,1,1,1], [0,0,0,0,1], [0,0,0,0,1], [1,1,1,1,1], [0,0,0,0,1], [0,0,0,0,1], [0,0,0,0,1], [1,1,1,1,1]]
  | 4 => [[1,0,0,0,1], [1,0,0,0,1], [1,0,0,0,1], [1,1,1,1,1], [0,0,0,0,1], [0,0,0,0,1], [0,0,0,0,1], [0,0,0,0,1]]
  | 5 => [[1,1,1,1,1], [1,0,0,0,0], [1,0,0,0,0], [1,1,1,1,1], [0,0,0,0,1], [0,0,0,0,1], [0,0,0,0,1], [1,1,1,1,1]]
  | 6 => [[1,1,1,1,1], [1,0,0,0,0], [1,0,0,0,0], [1,1,1,1,1], [1,0,0,0,1], [1,0,0,0,1], [1,0,0,0,1], [1,1,1,1,1]]
  | 7 => [[1,1,1,1,1], [0,0,0,0,1], [0,0,0,0,1], [0,0,0,0,1], [0,0,0,0,1], [0,0,0,0,1], [0,0,0,0,1], [0,0,0,0,1]]
  | 8 => [[1,1,1,1,1], [1,0,0,0,1], [1,0,0,0,1], [1,1,1,1,1], [1,0,0,0,1], [1,0,0,0,1], [1,0,0,0,1], [1,1,1,1,1]]
  | 9 => [[1,1,1,1,1], [1,0,0,0,1], [1,0,0,0,1], [1,1,1,1,1], [0,0,0,0,1], [0,0,0,0,1], [0,0,0,0,1], [1,1,1,1,1]]
  | _ => []

/-- One bit of the digit font; row and column indices are in range whenever the
source consults them (`rel_y < 8`, `rel_x < 5`). -/
def digitBit (d r x : ℕ) : ℕ :=
  ((digitPattern d).getD r []).getD x 0

/-- The blinking-LED overlay region (top-right corner):
`px >= width - 10 and py <= 8` with Python integer arithmetic. -/
def ledRegion (w px py : ℕ) : Prop :=
  (w : ℤ) - 10 ≤ (px : ℤ) ∧ (py : ℤ) ≤ 8

instance (w px py : ℕ) : Decidable (ledRegion w px py) := by
  unfold ledRegion; infer_instance

/-- The frame-counter overlay region (bottom-right corner):
`px >= width - 15 and py >= height - 10`. -/
def counterRegion (w h px py : ℕ) : Prop :=
  (w : ℤ) - 15 ≤ (px : ℤ) ∧ (h : ℤ) - 10 ≤ (py : ℤ)

instance (w h px py : ℕ) : Decidable (counterRegion w h px py) := by
  unfold counterRegion; infer_instance

/-- The LED overlay of `_render_view_raytracing` (and
`_add_visual_indicators`): overrides the pixel color inside the LED corner,
blinking with `frame_count // 3`. -/
def ledOverlay (w frame px py : ℕ) (c : Color) : Color :=
  if (w : ℤ) - 10 ≤ (px : ℤ) ∧ (py : ℤ) ≤ 8 then
    if (w : ℤ) - 8 ≤ (px : ℤ) ∧ (py : ℤ) ≤ 6 then
      if (frame / 3) % 2 = 0 then [0, 255, 0] else [0, 120, 0]
    else if (w : ℤ) - 10 ≤ (px : ℤ) ∧ (py : ℤ) ≤ 8 then
      if (frame / 3) % 2 = 0 then [0, 200, 0] else [0, 80, 0]
    else c
  else c

/-- The frame-counter overlay: paints the lit bits of the digit
`frame_count % 10` yellow inside the counter corner, keeping the underlying
pixel elsewhere. -/
def counterOverlay (w h frame px py : ℕ) (c : Color) : Color :=
  if (w : ℤ) - 15 ≤ (px : ℤ) ∧ (h : ℤ) - 10 ≤ (py : ℤ) then
    let digit := frame % 10
    let relX := (px : ℤ) - ((w : ℤ) - 15)
    let relY := (py : ℤ) - ((h : ℤ) - 10)
    if relX < 5 ∧ relY < 8 ∧ digit < 10 then
      if digitBit digit relY.toNat relX.toNat ≠ 0 then [255, 255, 0] else c
    else c
  else c

/-- The frame-independent scene color of one pixel: the marched ray through
that pixel (the body of the double loop before the overlay blocks). -/
def scenePixel (o : TrigOracle) (pose : Pose)
    (blocks : ℤ × ℤ × ℤ → Option String) (px py : ℕ) : Color :=
  rayMarch pose.position (rayDirection o pose px py) blocks

/-- One pixel of `_render_view_raytracing`: scene color, then LED overlay,
then counter overlay, in source order. -/
def pixelColor (o : TrigOracle) (pose : Pose)
    (blocks : ℤ × ℤ × ℤ → Option String) (frame px py : ℕ) : Color :=
  counterOverlay pose.width pose.height frame px py
    (ledOverlay pose.width frame px py (scenePixel o pose blocks px py))

/-- `_render_view_raytracing`: the flat RGB byte list, rows top to bottom,
pixels left to right, three bytes per pixel. -/
def renderRT (o : TrigOracle) (pose : Pose)
    (blocks : ℤ × ℤ × ℤ → Option String) (frame : ℕ) : List ℕ :=
  (List.range pose.height).flatMap fun py =>
    (List.range pose.width).flatMap fun px =>
      pixelColor o pose blocks frame px py

/-! ## The renderer fallback chain (`CubeCamera.render_view`)

The three optional accelerated renderers are modelled by their observable
per-frame behavior: a call either returns a byte list or throws.  `render_view`
records which variants were attempted, in call order, alongside the produced
frame and the camera state after the call (only the world-hash cache is ever
written by `render_view`; the renderer fields are not reassigned anywhere in
it). -/

inductive RKind where
  | ultraFast
  | fastOpt
  | pygletR
  | raytracing
deriving DecidableEq

/-- An installed renderer variant: its per-frame render call may throw. -/
structure RVariant where
  render : ℕ → Except Unit (List ℕ)

/-- The renderer-related state of a `CubeCamera`. -/
structure CamRender where
  ultra_fast_renderer : Option RVariant
  fast_renderer : Option RVariant
  pyglet_renderer : Option RVariant
  world_cache_hash : Option ℤ

/-- Result of one `render_view` call. -/
structure RenderResult where
  output : List ℕ
  attempts : List RKind
  state : CamRender

/-- The world-hash cache refresh performed before each attempted render call. -/
def updCache (wh : ℤ) (c : CamRender) : CamRender :=
  if c.world_cache_hash = some wh then c
  else { c with world_cache_hash := some wh }

/-- Reads one RGB triple out of a flat byte list. -/
def tripleAt (bs : List ℕ) (off : ℕ) : Color :=
  [bs.getD off 0, bs.getD (off + 1) 0, bs.getD (off + 2) 0]

/-- `CubeCamera._add_visual_indicators`: burns the LED and frame-counter
overlays into an already rendered flat pixel buffer. -/
def applyIndicators (w h frame : ℕ) (bs : List ℕ) : List ℕ :=
  (List.range h).flatMap fun py =>
    (List.range w).flatMap fun px =>
      counterOverlay w h frame px py
        (ledOverlay w frame px py (tripleAt bs ((py * w + px) * 3)))

/-- The unconditional final fallback of `render_view`:
`_render_view_raytracing`. -/
def rtFallback (o : TrigOracle) (pose : Pose)
    (blocks : ℤ × ℤ × ℤ → Option String) (frame : ℕ) (att : List RKind)
    (c : CamRender) : RenderResult :=
  ⟨renderRT o pose blocks frame, att ++ [RKind.raytracing], c⟩

/-- Third block of `render_view`: the Pyglet renderer, whose successful output
additionally gets the visual indicators burnt in. -/
def tryPyglet (o : TrigOracle) (pose : Pose)
    (blocks : ℤ × ℤ × ℤ → Option String) (wh : ℤ) (frame : ℕ)
    (att : List RKind) (c : CamRender) : RenderResult :=
  match c.pyglet_renderer with
  | Option.none => rtFallback o pose blocks frame att c
  | some r =>
    let c1 := updCache wh c
    match r.render frame with
    | Except.ok out =>
        ⟨applyIndicators pose.width pose.height frame out,
          att ++ [RKind.pygletR], c1⟩
    | Except.error _ =>
        rtFallback o pose blocks frame (att ++ [RKind.pygletR]) c1

/-- Second block of `render_view`: the fast optimized renderer. -/
def tryFast (o : TrigOracle) (pose : Pose)
    (blocks : ℤ × ℤ × ℤ → Option String) (wh : ℤ) (frame : ℕ)
    (att : List RKind) (c : CamRender) : RenderResult :=
  match c.fast_renderer with
  | Option.none => tryPyglet o pose blocks wh frame att c
  | some r =>
    let c1 := updCache wh c
    match r.render frame with
    | Except.ok out => ⟨out, att ++ [RKind.fastOpt], c1⟩
    | Except.error _ => tryPyglet o pose blocks wh frame (att ++ [RKind.fastOpt]) c1

/-- `CubeCamera.render_view`: tries the installed variants in priority order,
falling through on a thrown render call; `wh` is the content hash of the
current world snapshot. -/
def render_view (o : TrigOracle) (pose : Pose)
    (blocks : ℤ × ℤ × ℤ → Option String) (wh : ℤ) (c : CamRender)
    (frame : ℕ) : RenderResult :=
  match c.ultra_fast_renderer with
  | Option.none => tryFast o pose blocks wh frame [] c
  | some r =>
    let c1 := updCache wh c
    match r.render frame with
    | Except.ok out => ⟨out, [RKind.ultraFast], c1⟩
    | Except.error _ => tryFast o pose blocks wh frame [RKind.ultraFast] c1

/-- `CubeCamera.get_active_renderer_type`. -/
def get_active_renderer_type (c : CamRender) : String :=
  match c.ultra_fast_renderer with
  | some _ => "Ultra-Fast Renderer"
  | Option.none =>
    match c.fast_renderer with
    | some _ => "Fast Optimized Renderer"
    | Option.none =>
      match c.pyglet_renderer with
      | some _ => "Pyglet Renderer"
      | Option.none => "Original Ray Tracing"

/-- The priority-selected variant, mirroring `get_active_renderer_type`. -/
def activeKind (c : CamRender) : RKind :=
  match c.ultra_fast_renderer with
  | some _ => RKind.ultraFast
  | Option.none =>
    match c.fast_renderer with
    | some _ => RKind.fastOpt
    | Option.none =>
      match c.pyglet_renderer with
      | some _ => RKind.pygletR
      | Option.none => RKind.raytracing

/-! ## The streaming send phase (`MinecraftServer.camera_stream_loop`)

One tick iterates over a snapshot list of the camera's subscribers; a failed
send discards that subscriber from the live set and the loop continues with
the next subscriber. -/

abbrev WS := ℕ

/-- The per-tick send loop: `subs` is the snapshot list being iterated,
`sendOk` tells whether `await ws.send(message)` succeeds for a handle, and
`st` is the live subscriber set.  Returns the handles actually sent to (in
iteration order) and the live set after the tick. -/
def sendLoopTick (subs : List WS) (sendOk : WS → Bool) (st : List WS) :
    List WS × List WS :=
  match subs with
  | [] => ([], st)
  | ws :: rest =>
    if sendOk ws then
      let r := sendLoopTick rest sendOk st
      (ws :: r.1, r.2)
    else
      sendLoopTick rest sendOk (st.filter (fun x => decide (x ≠ ws)))

/-! ## The frame codec and the frame message
(`MinecraftServer.compress_frame_jpeg` and the message built in
`camera_stream_loop`)

The PIL JPEG encoder is modelled by its observable behavior: `Option.none`
for the import failing, otherwise an encoder that either returns compressed
bytes or throws.  The base64 transport encoding round-trips bytes exactly, so
the message carries the payload bytes themselves. -/

def compress_frame_jpeg (pil : Option (List ℕ → Option (List ℕ)))
    (frame_data : List ℕ) : List ℕ :=
  match pil with
  | Option.none => frame_data
  | some enc =>
    match enc frame_data with
    | some compressed => compressed
    | Option.none => frame_data

structure FrameMessage where
  type : String
  camera_id : String
  width : ℕ
  height : ℕ
  frameBytes : List ℕ
  format : String
deriving DecidableEq

/-- The `camera_frame` message assembled each tick by `camera_stream_loop`. -/
def buildFrameMessage (pil : Option (List ℕ → Option (List ℕ)))
    (camId : String) (res : ℕ × ℕ) (frame_data : List ℕ) : FrameMessage :=
  { type := "camera_frame", camera_id := camId, width := res.1,
    height := res.2, frameBytes := compress_frame_jpeg pil frame_data,
    format := "jpeg" }

/-- The compressor when the PIL import fails. -/
def jpegUnavailable : Option (List ℕ → Option (List ℕ)) := Option.none

/-- A compressor whose encode call throws on every input. -/
def jpegRaises : Option (List ℕ → Option (List ℕ)) := some (fun _ => Option.none)

/-! ## Message handling (`MinecraftServer.handle_message` and handlers)

`handle_message` wraps every handler in a try/except that answers any raised
exception with an `error` reply.  For the handlers modelled here any raise
happens before the first state mutation, so replying from the pre-call state
is exact. -/

inductive PyErr where
  | typeError (msg : String)
deriving DecidableEq

/-- CPython semantics of `t[i] = v` on a tuple: tuples are immutable, item
assignment raises `TypeError` unconditionally. -/
def tupleSetItem (_t : ℚ × ℚ × ℚ) (_i : ℕ) (_v : ℚ) :
    Except PyErr (ℚ × ℚ × ℚ) :=
  Except.error (PyErr.typeError "tuple object does not support item assignment")

/-- Tuple subscript read `t[i]` for the three-component position tuples. -/
def tupleGet (t : ℚ × ℚ × ℚ) (i : ℕ) : ℚ :=
  match i with
  | 0 => t.1
  | 1 => t.2.1
  | _ => t.2.2

/-- A JSON reply sent back to the requesting client. -/
structure Reply where
  type : String
  message : String
  camera : Option Cube
  positions : Option (List (String × (ℚ × ℚ × ℚ)))
deriving DecidableEq

def errorReply (msg : String) : Reply :=
  ⟨"error", msg, Option.none, Option.none⟩

def cameraUpdatedReply (c : Cube) : Reply :=
  ⟨"camera_updated", "", some c, Option.none⟩

/-- The mutable server state the modelled handlers touch. -/
structure ServerState where
  world : World
  player_positions : List (ℕ × (ℚ × ℚ × ℚ))
deriving DecidableEq

def ServerState.updateCamera (s : ServerState) (cid : String) (c : Cube) :
    ServerState :=
  { s with world := { s.world with cameras := dinsert s.world.cameras cid c } }

/-- `MinecraftServer.handle_control_camera`: unknown camera gets an error
reply; `rotate` updates the rotation list in place; `move` attempts
`camera.position[k] += delta[k]` on the position tuple, which raises; any
action then falls through to the `camera_updated` reply. -/
def handle_control_camera (s : ServerState) (camera_id action : String)
    (yaw pitch : ℚ) (delta : ℚ × ℚ × ℚ) : Except PyErr (ServerState × Reply) :=
  match s.world.get_camera camera_id with
  | Option.none =>
      Except.ok (s, errorReply ("Camera " ++ camera_id ++ " introuvable"))
  | some cam =>
    if action = "rotate" then
      let cam1 := cam.rotateCam yaw pitch
      Except.ok (s.updateCamera camera_id cam1, cameraUpdatedReply cam1)
    else if action = "move" then do
      let p1 ← tupleSetItem cam.position 0 (tupleGet cam.position 0 + delta.1)
      let p2 ← tupleSetItem p1 1 (tupleGet p1 1 + delta.2.1)
      let p3 ← tupleSetItem p2 2 (tupleGet p2 2 + delta.2.2)
      let cam1 := { cam with position := p3 }
      Except.ok (s.updateCamera camera_id cam1, cameraUpdatedReply cam1)
    else
      Except.ok (s, cameraUpdatedReply cam)

/-- The reply body of `handle_get_player_positions`. -/
def playerPositionsReply (s : ServerState) : Reply :=
  ⟨"player_positions", "",
    Option.none,
    some (s.player_positions.map (fun p => ("player_" ++ toString p.1, p.2)))⟩

/-- The body of `handle_get_player_positions` once actually entered. -/
def handle_get_player_positions_body (s : ServerState) : ServerState × Reply :=
  (s, playerPositionsReply s)

/-- Python positional-call semantics: the argument count is checked against
the declared parameter count before the body runs; a mismatch raises
`TypeError` and the body is never entered. -/
def pyCall {S : Type} (declaredParams givenArgs : ℕ) (body : S → S × Reply)
    (s : S) : Except PyErr (S × Reply) :=
  if givenArgs = declaredParams then Except.ok (body s)
  else
    Except.error (PyErr.typeError
      "handle_get_player_positions takes 2 positional arguments but 3 were given")

/-- `async def handle_get_player_positions(self, websocket)` declares one
parameter besides `self`. -/
def handle_get_player_positions_params : ℕ := 1

/-- The dispatcher calls `self.handle_get_player_positions(websocket, data)`:
two arguments besides `self`. -/
def get_player_positions_dispatch_args : ℕ := 2

/-- The inbound messages modelled here. -/
inductive Msg where
  | control_camera (camera_id action : String) (yaw pitch : ℚ)
      (delta : ℚ × ℚ × ℚ)
  | get_player_positions

/-- `MinecraftServer.handle_message`: routes to the handler and converts any
raised exception into an `error` reply. -/
def handle_message (s : ServerState) (m : Msg) : ServerState × Reply :=
  let r : Except PyErr (ServerState × Reply) :=
    match m with
    | Msg.control_camera cid act y p d => handle_control_camera s cid act y p d
    | Msg.get_player_positions =>
        pyCall handle_get_player_positions_params
          get_player_positions_dispatch_args handle_get_player_positions_body s
  match r with
  | Except.ok out => out
  | Except.error (PyErr.typeError msg) => (s, errorReply msg)

/-! ## Camera creation (`MinecraftServer.handle_create_camera`)

The requested resolution is an arbitrary JSON value.  Python `min`/`max`
accept numbers (including booleans, which are integers) and raise `TypeError`
on other operand types. -/

inductive PyVal where
  | num (q : ℚ)
  | pybool (b : Bool)
  | str (s : String)
  | list (l : List PyVal)
  | null

/-- `min(a, v)` for a numeric literal `a` and an arbitrary value `v`. -/
def pyMinNum (a : ℚ) (v : PyVal) : Except PyErr ℚ :=
  match v with
  | PyVal.num q => Except.ok (min a q)
  | PyVal.pybool b => Except.ok (min a (if b then 1 else 0))
  | _ => Except.error (PyErr.typeError "comparison not supported between instances")

/-- The resolution-validation block of `handle_create_camera`: a two-element
list is clamped componentwise (`max(160, min(1920, w))`,
`max(120, min(1080, h))`); anything else — including the absent-key default,
which is a tuple and fails the `isinstance(resolution, list)` test — falls
back to `(240, 180)`. -/
def clampResolution (res : Option PyVal) : Except PyErr (ℚ × ℚ) :=
  match res with
  | Option.none => Except.ok (240, 180)
  | some v =>
    match v with
    | PyVal.list [a, b] => do
      let w0 ← pyMinNum 1920 a
      let w := max 160 w0
      let h0 ← pyMinNum 1080 b
      let h := max 120 h0
      Except.ok (w, h)
    | _ => Except.ok (240, 180)

/-- `handle_create_camera` up to the construction of the camera object: an
exception escaping the resolution validation aborts the handler before any
camera is created. -/
def handle_create_camera (pos : ℚ × ℚ × ℚ) (nm : String) (res : Option PyVal)
    (ts : String) : Except PyErr Cube := do
  let r ← clampResolution res
  Except.ok (mkCubeCamera pos nm r ts)

/-! ## Concrete instances used by witnesses and counterexamples -/

def oracleEx : TrigOracle := ⟨fun _ => 1, fun _ => 0, fun _ => 1, fun _ => 1⟩

def blocksNone : ℤ × ℤ × ℤ → Option String := fun _ => Option.none

def poseEx : Pose := ⟨(0, 5, 0), 0, 0, 70, 20, 15⟩

def poseTiny : Pose := ⟨(0, 0, 0), 0, 0, 70, 1, 1⟩

/-- A renderer variant whose render call throws on every frame. -/
def failingVariant : RVariant := ⟨fun _ => Except.error ()⟩

/-- A camera whose selected variant is the Pyglet renderer (the reachable
accelerated configuration, since both module-level renderer flags are `False`
in the source) and whose render call always throws. -/
def camRenderEx : CamRender := ⟨Option.none, Option.none, some failingVariant, Option.none⟩

def cameraEx : Cube := mkCubeCamera (5, 2, 5) "TestCamera" (320, 240) "1700"

def worldEx3 : World := ⟨[], [("cam_1700", cameraEx)], [], [], []⟩

def stateEx : ServerState := ⟨worldEx3, []⟩

def grassEx : Cube := mkCube (2, 1, 2) "grass"

def playerEx : Cube := mkPlayer (2, 1, 2) "1" "Joueur_1"

def worldEx5 : World := ⟨[((2, 1, 2), grassEx)], [], [], [("player_1", playerEx)], []⟩

def camResEx : Option PyVal := some (PyVal.list [PyVal.num 5000, PyVal.num (-3)])

def createdCamEx : Cube := mkCubeCamera (0, 2, 0) "Camera" (1920, 120) "t0"

/-! ## Dictionary lemmas -/

theorem dlookup_dinsert_self {K V : Type} [DecidableEq K] (m : List (K × V))
    (k : K) (v : V) : dlookup (dinsert m k v) k = some v := by
  simp [dlookup, dinsert]

theorem find?_filter_ne {K V : Type} [DecidableEq K] (m : List (K × V))
    (k k' : K) (h : k' ≠ k) :
    (m.filter (fun p => decide (p.1 ≠ k))).find? (fun p => decide (p.1 = k')) =
      m.find? (fun p => decide (p.1 = k')) := by
  induction m with
  | nil => rfl
  | cons a t ih =>
    by_cases ha : a.1 = k
    · have ha' : ¬ a.1 = k' := by rw [ha]; exact fun hh => h hh.symm
      rw [List.filter_cons_of_neg (by simpa using ha),
        List.find?_cons_of_neg _ (by simpa using ha'), ih]
    · by_cases ha' : a.1 = k'
      · rw [List.filter_cons_of_pos (by simpa using ha),
          List.find?_cons_of_pos _ (by simpa using ha'),
          List.find?_cons_of_pos _ (by simpa using ha')]
      · rw [List.filter_cons_of_pos (by simpa using ha),
          List.find?_cons_of_neg _ (by simpa using ha'),
          List.find?_cons_of_neg _ (by simpa using ha'), ih]

theorem dlookup_dinsert_ne {K V : Type} [DecidableEq K] (m : List (K × V))
    (k k' : K) (v : V) (h : k' ≠ k) :
    dlookup (dinsert m k v) k' = dlookup m k' := by
  have hk : ¬ k = k' := fun hh => h hh.symm
  unfold dlookup dinsert
  rw [List.find?_cons_of_neg _ (by simpa using hk), find?_filter_ne m k k' h]

theorem dlookup_foldl_dinsert (cs : List Cube)
    (m : List ((ℤ × ℤ × ℤ) × Cube)) (cell : ℤ × ℤ × ℤ) :
    dlookup (cs.foldl (fun acc c => dinsert acc (floorCell c.position) c) m) cell
      = (cs.reverse.find? (fun c => decide (floorCell c.position = cell))).or
          (dlookup m cell) := by
  induction cs generalizing m with
  | nil => simp
  | cons c t ih =>
    show dlookup (t.foldl _ (dinsert m (floorCell c.position) c)) cell = _
    rw [ih, List.reverse_cons, List.find?_append, Option.or_assoc]
    congr 1
    by_cases hc : floorCell c.position = cell
    · rw [show ([c].find? (fun c => decide (floorCell c.position = cell))) = some c
        from by simp [hc]]
      rw [← hc, dlookup_dinsert_self]
      simp
    · have hne : cell ≠ floorCell c.position := fun hh => hc hh.symm
      rw [show ([c].find? (fun c => decide (floorCell c.position = cell)))
          = Option.none from by simp [hc]]
      rw [dlookup_dinsert_ne m (floorCell c.position) cell c hne]
      simp

/-- C5: in the world snapshot returned by `get_all_blocks`, any cell some
dynamic actor floors to is mapped to such an actor (overriding any terrain
block there), and a cell no actor floors to keeps its terrain entry. -/
theorem get_all_blocks_actor_precedence (w : World) (cell : ℤ × ℤ × ℤ) :
    ((∃ a ∈ w.actorList, floorCell a.position = cell) →
      ∃ a, a ∈ w.actorList ∧ floorCell a.position = cell ∧
        dlookup w.get_all_blocks cell = some a)
    ∧ ((∀ a ∈ w.actorList, floorCell a.position ≠ cell) →
      dlookup w.get_all_blocks cell = dlookup w.blocks cell) := by
  have hfold := dlookup_foldl_dinsert w.actorList w.blocks cell
  constructor
  · rintro ⟨a, ha, hfa⟩
    cases hfind : w.actorList.reverse.find?
        (fun c => decide (floorCell c.position = cell)) with
    | none =>
      rw [List.find?_eq_none] at hfind
      exact absurd (by simpa using hfa) (by simpa using hfind a (List.mem_reverse.2 ha))
    | some b =>
      have hmem : b ∈ w.actorList.reverse := List.mem_of_find?_eq_some hfind
      have hpred : floorCell b.position = cell := by
        simpa using List.find?_some hfind
      refine ⟨b, List.mem_reverse.1 hmem, hpred, ?_⟩
      show dlookup (w.actorList.foldl _ w.blocks) cell = some b
      rw [hfold, hfind]
      rfl
  · intro hall
    have hnone : w.actorList.reverse.find?
        (fun c => decide (floorCell c.position = cell)) = Option.none := by
      rw [List.find?_eq_none]
      intro a ha
      simpa using hall a (List.mem_reverse.1 ha)
    show dlookup (w.actorList.foldl _ w.blocks) cell = dlookup w.blocks cell
    rw [hfold, hnone]
    rfl

/-- C5 witness: in a world with a grass terrain block at `(2,1,2)` and a
player positioned there, the snapshot reports an actor at that cell. -/
theorem get_all_blocks_actor_precedence_witness :
    ∃ a, a ∈ worldEx5.actorList ∧ floorCell a.position = (2, 1, 2) ∧
      dlookup worldEx5.get_all_blocks (2, 1, 2) = some a :=
  (get_all_blocks_actor_precedence worldEx5 (2, 1, 2)).1
    ⟨playerEx, by decide, by simp [playerEx, mkPlayer, floorCell]⟩

/-! ## Ray-march characterization -/

theorem findSome?_map {α β γ : Type} (g : α → β) (f : β → Option γ)
    (l : List α) : (l.map g).findSome? f = l.findSome? (fun x => f (g x)) := by
  induction l with
  | nil => rfl
  | cons a t ih => cases h : f (g a) <;> simp [List.findSome?_cons, h, ih]

theorem rayMarchLoop_spec (o d : ℚ × ℚ × ℚ)
    (blocks : ℤ × ℤ × ℤ → Option String) :
    ∀ (fuel i : ℕ), rayMarchLoop o d blocks i fuel =
      ((List.range fuel).findSome? (fun j => blocks (cellAt o d (i + j)))).elim
        (skyColor d.2.1) blockColor := by
  intro fuel
  induction fuel with
  | zero => intro i; simp [rayMarchLoop]
  | succ n ih =>
    intro i
    rw [List.range_succ_eq_map]
    cases hb : blocks (cellAt o d i) with
    | some bt =>
      simp [rayMarchLoop, List.findSome?_cons, findSome?_map, Nat.add_zero, hb]
    | none =>
      simp only [rayMarchLoop, hb, List.findSome?_cons, findSome?_map,
        Function.comp, Nat.add_zero]
      have hfun : (fun x : ℕ => blocks (cellAt o d (i + x.succ)))
          = fun x : ℕ => blocks (cellAt o d ((i + 1) + x)) := by
        funext x
        simp only [Nat.add_succ, Nat.succ_add]
      rw [hfun]
      exact ih (i + 1)

/-- C7: `_ray_march` returns the fixed color of the block type occupying the
first occupied sampled cell within the maximum distance, and the two-tone sky
color chosen by the sign of the vertical ray component when no sampled cell
within the maximum distance is occupied. -/
theorem ray_march_first_hit_color (o d : ℚ × ℚ × ℚ)
    (blocks : ℤ × ℤ × ℤ → Option String) :
    rayMarch o d blocks =
      (firstHitBlockType o d blocks).elim (specSkyColor d.2.1) specColorOf := by
  have h := rayMarchLoop_spec o d blocks 20 0
  simp only [Nat.zero_add] at h
  unfold rayMarch firstHitBlockType
  rw [h]
  rfl

/-! ## Determinism and overlay locality of `_render_view_raytracing` -/

theorem ledOverlay_outside (w frame px py : ℕ) (c : Color)
    (h : ¬ ledRegion w px py) : ledOverlay w frame px py c = c := by
  unfold ledRegion at h
  simp only [ledOverlay, if_neg h]

theorem counterOverlay_outside (w h' frame px py : ℕ) (c : Color)
    (h : ¬ counterRegion w h' px py) : counterOverlay w h' frame px py c = c := by
  unfold counterRegion at h
  simp only [counterOverlay, if_neg h]

/-- C8: the raytracing renderer is a pure function of its inputs (repeat
renders agree byte for byte); two renders of the same pose and snapshot that
differ only in `frame_index` agree on every pixel outside the two fixed
overlay corners; and every pixel equals the overlay functions — which depend
only on the frame index, the resolution and the pixel coordinates — applied
to a frame-independent scene color. -/
theorem raytracing_render_deterministic (o : TrigOracle) (pose : Pose)
    (blocks : ℤ × ℤ × ℤ → Option String) (f1 f2 px py : ℕ) :
    renderRT o pose blocks f1 = renderRT o pose blocks f1
    ∧ (¬ ledRegion pose.width px py → ¬ counterRegion pose.width pose.height px py →
        pixelColor o pose blocks f1 px py = pixelColor o pose blocks f2 px py)
    ∧ (∀ f, pixelColor o pose blocks f px py =
        counterOverlay pose.width pose.height f px py
          (ledOverlay pose.width f px py (scenePixel o pose blocks px py))) := by
  refine ⟨rfl, ?_, fun f => rfl⟩
  intro h1 h2
  unfold pixelColor
  rw [ledOverlay_outside _ _ _ _ _ h1, ledOverlay_outside _ _ _ _ _ h1,
    counterOverlay_outside _ _ _ _ _ _ h2, counterOverlay_outside _ _ _ _ _ _ h2]

/-- C8 witness: the top-left pixel lies outside both overlay corners of a
20×15 frame, so frames 0 and 1 agree on it. -/
theorem raytracing_render_deterministic_witness :
    (¬ ledRegion poseEx.width 0 0 ∧ ¬ counterRegion poseEx.width poseEx.height 0 0)
    ∧ pixelColor oracleEx poseEx blocksNone 0 0 0
        = pixelColor oracleEx poseEx blocksNone 1 0 0 :=
  ⟨⟨by decide, by decide⟩,
    (raytracing_render_deterministic oracleEx poseEx blocksNone 0 1 0 0).2.1
      (by decide) (by decide)⟩

/-! ## Subscriber isolation in the streaming tick -/

/-- C9: in one streaming tick, the frame is sent to exactly the subscribers in
the iterated snapshot whose send succeeds (a failure earlier in the iteration
does not abort the loop or skip later subscribers), and the live subscriber
set afterwards has lost exactly the iterated subscribers whose send failed. -/
theorem stream_send_failure_isolation (subs : List WS) (sendOk : WS → Bool)
    (st : List WS) :
    (sendLoopTick subs sendOk st).1 = subs.filter sendOk
    ∧ (sendLoopTick subs sendOk st).2
        = st.filter (fun ws => sendOk ws || !(subs.contains ws)) := by
  induction subs generalizing st with
  | nil =>
    refine ⟨rfl, ?_⟩
    show st = st.filter fun ws => sendOk ws || !(([] : List WS).contains ws)
    simp
  | cons ws rest ih =>
    by_cases hw : sendOk ws
    · constructor
      · simp [sendLoopTick, hw, (ih st).1, List.filter_cons]
      · simp only [sendLoopTick, hw, if_pos]
        rw [(ih st).2]
        refine List.filter_congr ?_
        intro x _
        by_cases hxw : x = ws
        · subst hxw; simp [hw]
        · simp [List.contains_cons, hxw]
    · constructor
      · simp [sendLoopTick, hw, (ih _).1, List.filter_cons]
      · simp only [sendLoopTick, hw, if_neg, Bool.false_eq_true, not_false_iff]
        rw [(ih (st.filter fun x => decide (x ≠ ws))).2, List.filter_filter]
        refine List.filter_congr ?_
        intro x _
        by_cases hxw : x = ws
        · subst hxw; simp [hw, List.contains_cons]
        · simp [List.contains_cons, hxw]

/-! ## Per-call fallback in `render_view` -/

theorem updCache_proj (wh : ℤ) (c : CamRender) :
    (updCache wh c).ultra_fast_renderer = c.ultra_fast_renderer
    ∧ (updCache wh c).fast_renderer = c.fast_renderer
    ∧ (updCache wh c).pyglet_renderer = c.pyglet_renderer := by
  unfold updCache
  split <;> exact ⟨rfl, rfl, rfl⟩


theorem tryPyglet_sel_none (o : TrigOracle) (pose : Pose)
    (blocks : ℤ × ℤ × ℤ → Option String) (wh : ℤ) (frame : ℕ)
    (att : List RKind) (c : CamRender) (h : c.pyglet_renderer = Option.none) :
    tryPyglet o pose blocks wh frame att c
      = rtFallback o pose blocks frame att c := by
  unfold tryPyglet
  rw [h]

theorem tryPyglet_sel_some (o : TrigOracle) (pose : Pose)
    (blocks : ℤ × ℤ × ℤ → Option String) (wh : ℤ) (frame : ℕ)
    (att : List RKind) (c : CamRender) (r : RVariant)
    (h : c.pyglet_renderer = some r) :
    tryPyglet o pose blocks wh frame att c
      = (match r.render frame with
         | Except.ok out =>
             ⟨applyIndicators pose.width pose.height frame out,
               att ++ [RKind.pygletR], updCache wh c⟩
         | Except.error _ =>
             rtFallback o pose blocks frame (att ++ [RKind.pygletR])
               (updCache wh c)) := by
  unfold tryPyglet
  rw [h]

theorem tryFast_sel_none (o : TrigOracle) (pose : Pose)
    (blocks : ℤ × ℤ × ℤ → Option String) (wh : ℤ) (frame : ℕ)
    (att : List RKind) (c : CamRender) (h : c.fast_renderer = Option.none) :
    tryFast o pose blocks wh frame att c
      = tryPyglet o pose blocks wh frame att c := by
  unfold tryFast
  rw [h]

theorem tryFast_sel_some (o : TrigOracle) (pose : Pose)
    (blocks : ℤ × ℤ × ℤ → Option String) (wh : ℤ) (frame : ℕ)
    (att : List RKind) (c : CamRender) (r : RVariant)
    (h : c.fast_renderer = some r) :
    tryFast o pose blocks wh frame att c
      = (match r.render frame with
         | Except.ok out => ⟨out, att ++ [RKind.fastOpt], updCache wh c⟩
         | Except.error _ =>
             tryPyglet o pose blocks wh frame (att ++ [RKind.fastOpt])
               (updCache wh c)) := by
  unfold tryFast
  rw [h]

theorem render_view_sel_none (o : TrigOracle) (pose : Pose)
    (blocks : ℤ × ℤ × ℤ → Option String) (wh : ℤ) (c : CamRender) (frame : ℕ)
    (h : c.ultra_fast_renderer = Option.none) :
    render_view o pose blocks wh c frame
      = tryFast o pose blocks wh frame [] c := by
  unfold render_view
  rw [h]

theorem render_view_sel_some (o : TrigOracle) (pose : Pose)
    (blocks : ℤ × ℤ × ℤ → Option String) (wh : ℤ) (c : CamRender) (frame : ℕ)
    (r : RVariant) (h : c.ultra_fast_renderer = some r) :
    render_view o pose blocks wh c frame
      = (match r.render frame with
         | Except.ok out => ⟨out, [RKind.ultraFast], updCache wh c⟩
         | Except.error _ =>
             tryFast o pose blocks wh frame [RKind.ultraFast]
               (updCache wh c)) := by
  unfold render_view
  rw [h]

theorem tryPyglet_state (o : TrigOracle) (pose : Pose)
    (blocks : ℤ × ℤ × ℤ → Option String) (wh : ℤ) (frame : ℕ)
    (att : List RKind) (c : CamRender) :
    (tryPyglet o pose blocks wh frame att c).state.ultra_fast_renderer
        = c.ultra_fast_renderer
    ∧ (tryPyglet o pose blocks wh frame att c).state.fast_renderer
        = c.fast_renderer
    ∧ (tryPyglet o pose blocks wh frame att c).state.pyglet_renderer
        = c.pyglet_renderer := by
  cases hpg : c.pyglet_renderer with
  | none =>
    rw [tryPyglet_sel_none o pose blocks wh frame att c hpg]
    exact ⟨rfl, rfl, hpg⟩
  | some r =>
    rw [tryPyglet_sel_some o pose blocks wh frame att c r hpg]
    have h := updCache_proj wh c
    cases hr : r.render frame with
    | ok out => exact ⟨h.1, h.2.1, h.2.2.trans hpg⟩
    | error e => exact ⟨h.1, h.2.1, h.2.2.trans hpg⟩

theorem tryFast_state (o : TrigOracle) (pose : Pose)
    (blocks : ℤ × ℤ × ℤ → Option String) (wh : ℤ) (frame : ℕ)
    (att : List RKind) (c : CamRender) :
    (tryFast o pose blocks wh frame att c).state.ultra_fast_renderer
        = c.ultra_fast_renderer
    ∧ (tryFast o pose blocks wh frame att c).state.fast_renderer
        = c.fast_renderer
    ∧ (tryFast o pose blocks wh frame att c).state.pyglet_renderer
        = c.pyglet_renderer := by
  cases hf : c.fast_renderer with
  | none =>
    rw [tryFast_sel_none o pose blocks wh frame att c hf]
    have h := tryPyglet_state o pose blocks wh frame att c
    exact ⟨h.1, h.2.1.trans hf, h.2.2⟩
  | some r =>
    rw [tryFast_sel_some o pose blocks wh frame att c r hf]
    cases hr : r.render frame with
    | ok out =>
      have h := updCache_proj wh c
      exact ⟨h.1, h.2.1.trans hf, h.2.2⟩
    | error e =>
      have h1 := tryPyglet_state o pose blocks wh frame (att ++ [RKind.fastOpt])
        (updCache wh c)
      have h2 := updCache_proj wh c
      exact ⟨h1.1.trans h2.1, h1.2.1.trans (h2.2.1.trans hf), h1.2.2.trans h2.2.2⟩

theorem tryPyglet_attempts (o : TrigOracle) (pose : Pose)
    (blocks : ℤ × ℤ × ℤ → Option String) (wh : ℤ) (frame : ℕ)
    (att : List RKind) (c : CamRender) :
    ∃ l, (tryPyglet o pose blocks wh frame att c).attempts = att ++ l := by
  cases hpg : c.pyglet_renderer with
  | none =>
    rw [tryPyglet_sel_none o pose blocks wh frame att c hpg]
    exact ⟨[RKind.raytracing], rfl⟩
  | some r =>
    rw [tryPyglet_sel_some o pose blocks wh frame att c r hpg]
    cases hr : r.render frame with
    | ok out => exact ⟨[RKind.pygletR], rfl⟩
    | error e => exact ⟨[RKind.pygletR, RKind.raytracing], by simp [rtFallback]⟩

theorem tryFast_attempts (o : TrigOracle) (pose : Pose)
    (blocks : ℤ × ℤ × ℤ → Option String) (wh : ℤ) (frame : ℕ)
    (att : List RKind) (c : CamRender) :
    ∃ l, (tryFast o pose blocks wh frame att c).attempts = att ++ l := by
  cases hf : c.fast_renderer with
  | none =>
    rw [tryFast_sel_none o pose blocks wh frame att c hf]
    exact tryPyglet_attempts o pose blocks wh frame att c
  | some r =>
    rw [tryFast_sel_some o pose blocks wh frame att c r hf]
    cases hr : r.render frame with
    | ok out => exact ⟨[RKind.fastOpt], rfl⟩
    | error e =>
      obtain ⟨l, hl⟩ := tryPyglet_attempts o pose blocks wh frame
        (att ++ [RKind.fastOpt]) (updCache wh c)
      exact ⟨[RKind.fastOpt] ++ l, by simp [hl]⟩

/-- C2 (amended): a render-call failure causes a fallback for that call only —
`render_view` never reassigns the renderer fields, and every call begins again
at the priority-selected variant of the camera's unchanged configuration, so a
variant that failed is attempted again on the next frame rather than being
permanently retired. -/
theorem render_view_fallback_is_per_call (o : TrigOracle) (pose : Pose)
    (blocks : ℤ × ℤ × ℤ → Option String) (wh : ℤ) (c : CamRender) (frame : ℕ) :
    ((render_view o pose blocks wh c frame).state.ultra_fast_renderer
        = c.ultra_fast_renderer
      ∧ (render_view o pose blocks wh c frame).state.fast_renderer
        = c.fast_renderer
      ∧ (render_view o pose blocks wh c frame).state.pyglet_renderer
        = c.pyglet_renderer)
    ∧ (render_view o pose blocks wh c frame).attempts.head?
        = some (activeKind c) := by
  cases hu : c.ultra_fast_renderer with
  | some r =>
    have hak : activeKind c = RKind.ultraFast := by unfold activeKind; rw [hu]
    rw [render_view_sel_some o pose blocks wh c frame r hu, hak]
    cases hr : r.render frame with
    | ok out =>
      have h := updCache_proj wh c
      exact ⟨⟨h.1.trans hu, h.2.1, h.2.2⟩, rfl⟩
    | error e =>
      constructor
      · have h1 := tryFast_state o pose blocks wh frame [RKind.ultraFast]
          (updCache wh c)
        have h2 := updCache_proj wh c
        exact ⟨h1.1.trans (h2.1.trans hu), h1.2.1.trans h2.2.1,
          h1.2.2.trans h2.2.2⟩
      · obtain ⟨l, hl⟩ := tryFast_attempts o pose blocks wh frame
          [RKind.ultraFast] (updCache wh c)
        rw [hl]
        rfl
  | none =>
    rw [render_view_sel_none o pose blocks wh c frame hu]
    cases hf : c.fast_renderer with
    | some r =>
      have hak : activeKind c = RKind.fastOpt := by
        unfold activeKind; rw [hu, hf]
      rw [tryFast_sel_some o pose blocks wh frame [] c r hf, hak]
      cases hr : r.render frame with
      | ok out =>
        have h := updCache_proj wh c
        exact ⟨⟨h.1.trans hu, h.2.1.trans hf, h.2.2⟩, rfl⟩
      | error e =>
        constructor
        · have h1 := tryPyglet_state o pose blocks wh frame
            ([] ++ [RKind.fastOpt]) (updCache wh c)
          have h2 := updCache_proj wh c
          exact ⟨h1.1.trans (h2.1.trans hu), h1.2.1.trans (h2.2.1.trans hf),
            h1.2.2.trans h2.2.2⟩
        · obtain ⟨l, hl⟩ := tryPyglet_attempts o pose blocks wh frame
            ([] ++ [RKind.fastOpt]) (updCache wh c)
          rw [hl]
          rfl
    | none =>
      rw [tryFast_sel_none o pose blocks wh frame [] c hf]
      cases hpg : c.pyglet_renderer with
      | some r =>
        have hak : activeKind c = RKind.pygletR := by
          unfold activeKind; rw [hu, hf, hpg]
        rw [tryPyglet_sel_some o pose blocks wh frame [] c r hpg, hak]
        cases hr : r.render frame with
        | ok out =>
          have h := updCache_proj wh c
          exact ⟨⟨h.1.trans hu, h.2.1.trans hf, h.2.2.trans hpg⟩, rfl⟩
        | error e =>
          have h := updCache_proj wh c
          exact ⟨⟨h.1.trans hu, h.2.1.trans hf, h.2.2.trans hpg⟩, rfl⟩
      | none =>
        have hak : activeKind c = RKind.raytracing := by
          unfold activeKind; rw [hu, hf, hpg]
        rw [tryPyglet_sel_none o pose blocks wh frame [] c hpg, hak]
        exact ⟨⟨hu, hf, hpg⟩, rfl⟩

/-- C2 counterexample: a camera whose active (Pyglet) renderer throws on frame
1 falls back to the raytracer for that frame, yet on the very next frame the
failed variant is attempted again — the downgrade is not permanent. -/
theorem failed_renderer_retried_next_frame :
    (render_view oracleEx poseTiny blocksNone 0 camRenderEx 1).attempts
      = [RKind.pygletR, RKind.raytracing]
    ∧ RKind.pygletR ∈
        (render_view oracleEx poseTiny blocksNone 0
          (render_view oracleEx poseTiny blocksNone 0 camRenderEx 1).state
          2).attempts := by
  constructor
  · rfl
  · decide

/-! ## Camera id under movement -/

/-- C3 counterexample: a camera registered under its creation id
`cam_1700`, once moved through `move_cube`, carries the position-based id
`cube_6_3_6_camera`, which differs from the key it is registered under. -/
theorem camera_id_changed_by_move_cube :
    cameraEx.id = "cam_1700"
    ∧ (dlookup (worldEx3.move_cube "cam_1700" (6, 3, 6)).1.cameras
        "cam_1700").map Cube.id = some "cube_6_3_6_camera"
    ∧ "cube_6_3_6_camera" ≠ "cam_1700" := by
  refine ⟨rfl, ?_, by decide⟩
  rfl

/-- C3 (amended): the creation id persists only until the camera is moved:
`move_to` (hence the `move_cube` command) succeeds for a camera, updates its
position, and rewrites its id to the position-based cube pattern, while the
world's camera map continues to hold it under the original registration
key. -/
theorem move_cube_rewrites_camera_id (w : World) (key : String) (cam : Cube)
    (p : ℚ × ℚ × ℚ) (hl : dlookup w.cameras key = some cam)
    (hm : cam.is_moveable = true) :
    dlookup (w.move_cube key p).1.cameras key
      = some { cam with position := p, id := cubeIdAt p cam.block_type }
    ∧ (w.move_cube key p).2 = true := by
  unfold World.move_cube
  rw [hl]
  simp [Cube.move_to, hm, dlookup_dinsert_self]

/-- C3 witness for the amended statement, at the concrete registered
camera. -/
theorem move_cube_rewrites_camera_id_witness :
    dlookup worldEx3.cameras "cam_1700" = some cameraEx
    ∧ (dlookup (worldEx3.move_cube "cam_1700" (6, 3, 6)).1.cameras "cam_1700"
        = some { cameraEx with
            position := (6, 3, 6)
            id := cubeIdAt (6, 3, 6) cameraEx.block_type }
      ∧ (worldEx3.move_cube "cam_1700" (6, 3, 6)).2 = true) :=
  ⟨by decide,
    move_cube_rewrites_camera_id worldEx3 "cam_1700" cameraEx (6, 3, 6)
      (by decide) rfl⟩

/-! ## The control_camera move action and the get_player_positions arity -/

/-- C4: a `control_camera` message with action `move` and a numeric delta on
an existing camera is answered with an `error` reply — the attempted item
assignment on the position tuple raises `TypeError` — and the server state is
unchanged; no `camera_updated` reply is produced. -/
theorem control_camera_move_tuple_type_error :
    handle_message stateEx (Msg.control_camera "cam_1700" "move" 0 0 (1, 0, 0))
      = (stateEx,
          errorReply "tuple object does not support item assignment") := by
  rfl

/-- C10: every `get_player_positions` message is answered with an `error`
reply (the dispatcher passes two arguments to the one-parameter handler, and
the resulting `TypeError` is caught), the handler body never runs, and the
server state is unchanged. -/
theorem get_player_positions_always_errors (s : ServerState) :
    handle_message s Msg.get_player_positions
      = (s, errorReply
          "handle_get_player_positions takes 2 positional arguments but 3 were given") :=
  rfl

/-! ## The frame message format tag -/

/-- C1 (code evaluation): the `camera_frame` message tags its payload
`"jpeg"` unconditionally; when the compressor is unavailable or its encode
call throws, the payload is the untouched raw RGB frame yet the format field
still reads `"jpeg"`, never `"raw"`. -/
theorem frame_format_always_jpeg (camId : String) (res : ℕ × ℕ)
    (frame_data : List ℕ) :
    ((buildFrameMessage jpegUnavailable camId res frame_data).format = "jpeg"
      ∧ (buildFrameMessage jpegUnavailable camId res frame_data).frameBytes
        = frame_data)
    ∧ ((buildFrameMessage jpegRaises camId res frame_data).format = "jpeg"
      ∧ (buildFrameMessage jpegRaises camId res frame_data).frameBytes
        = frame_data) :=
  ⟨⟨rfl, rfl⟩, ⟨rfl, rfl⟩⟩

/-! ## Resolution clamping at camera creation -/

theorem pyMinNum_le (a : ℚ) (v : PyVal) (q : ℚ)
    (h : pyMinNum a v = Except.ok q) : q ≤ a := by
  cases v with
  | num x =>
    simp only [pyMinNum, Except.ok.injEq] at h
    rw [← h]
    exact min_le_left _ _
  | pybool b =>
    simp only [pyMinNum, Except.ok.injEq] at h
    rw [← h]
    exact min_le_left _ _
  | str s => simp [pyMinNum] at h
  | list l => simp [pyMinNum] at h
  | null => simp [pyMinNum] at h

theorem clampResolution_bounds (res : Option PyVal) (r : ℚ × ℚ)
    (h : clampResolution res = Except.ok r) :
    160 ≤ r.1 ∧ r.1 ≤ 1920 ∧ 120 ≤ r.2 ∧ r.2 ≤ 1080 := by
  unfold clampResolution at h
  split at h
  · rw [Except.ok.injEq] at h
    rw [← h]
    norm_num
  · split at h
    · rename_i a b
      cases hw : pyMinNum 1920 a with
      | error e => rw [hw] at h; simp [Bind.bind, Except.bind] at h
      | ok w0 =>
        cases hh : pyMinNum 1080 b with
        | error e =>
          rw [hw, hh] at h; simp [Bind.bind, Except.bind] at h
        | ok h0 =>
          rw [hw, hh] at h
          simp only [Bind.bind, Except.bind, Except.ok.injEq] at h
          rw [← h]
          refine ⟨le_max_left _ _, max_le (by norm_num) (pyMinNum_le _ _ _ hw),
            le_max_left _ _, max_le (by norm_num) (pyMinNum_le _ _ _ hh)⟩
    · rw [Except.ok.injEq] at h
      rw [← h]
      norm_num

/-- C6: whatever resolution value a `create_camera` request supplies (absent,
malformed shape, wrong element types, or out-of-range numbers), any camera the
handler actually creates stores a resolution with width in `[160, 1920]` and
height in `[120, 1080]`. -/
theorem create_camera_resolution_clamped (pos : ℚ × ℚ × ℚ) (nm : String)
    (res : Option PyVal) (ts : String) (cam : Cube)
    (h : handle_create_camera pos nm res ts = Except.ok cam) :
    160 ≤ cam.resolution.1 ∧ cam.resolution.1 ≤ 1920
    ∧ 120 ≤ cam.resolution.2 ∧ cam.resolution.2 ≤ 1080 := by
  unfold handle_create_camera at h
  cases hr : clampResolution res with
  | error e => rw [hr] at h; simp [Bind.bind, Except.bind] at h
  | ok r =>
    rw [hr] at h
    simp only [Bind.bind, Except.bind, Except.ok.injEq] at h
    have hb := clampResolution_bounds res r hr
    rw [← h]
    simpa [mkCubeCamera] using hb

/-- C6 witness: the out-of-range request `[5000, -3]` yields a camera whose
stored resolution is the clamped `(1920, 120)`. -/
theorem create_camera_resolution_clamped_witness :
    handle_create_camera (0, 2, 0) "Camera" camResEx "t0" = Except.ok createdCamEx
    ∧ (160 ≤ createdCamEx.resolution.1 ∧ createdCamEx.resolution.1 ≤ 1920
      ∧ 120 ≤ createdCamEx.resolution.2 ∧ createdCamEx.resolution.2 ≤ 1080) :=
  ⟨rfl,
    create_camera_resolution_clamped (0, 2, 0) "Camera" camResEx "t0"
      createdCamEx rfl⟩
